import Mathlib

/-!
Shallow embedding of the mcp-dynamic-html-app repository
(src/database.py, src/html_renderer.py, src/server.py, src/server_http.py).

Conventions of the embedding:
* A calendar date is identified with its day index (an `Int`); Python's
  `datetime.now()` is the parameter `today`, and `timedelta(days = k)`
  arithmetic becomes integer addition, which shifts a naive datetime's
  calendar date by exactly `k` days.  `strftime("%Y-%m-%d")` is modelled
  by printing the day index (`dateStr`), since no property here inspects
  the textual format of a date, only equality and succession of dates.
* `random.randint(lo, hi)` draws from an ambient entropy stream, modelled
  by a function `g : Nat → Nat` indexed by the position of the call;
  `randint` reduces the drawn entropy into the inclusive range `[lo, hi]`.
  `round(random.uniform(lo, hi), 2)` is modelled the same way on the
  integer grid of hundredths (`MVal.fix2`).
* Python dicts holding one metric point become an association list from
  field name to numeric value (`MetricPoint.kv`); dict indexing becomes
  `List.lookup` (the source would raise `KeyError` on a missing key; the
  total accessor `mvNat` defaults to 0, a branch no theorem below relies
  on, since every lookup performed is on a point built with that key).
* The HTML template literals of html_renderer.py are transcribed verbatim
  into the chunk constants below, split exactly at the f-string
  interpolation points; `\x7b`/`\x7d` denote the literal braces written
  as `{{`/`}}` in the Python f-strings and `\x27` a literal single quote.
-/

namespace DynamicHtml

/-! ### Record store (src/database.py) -/

structure UserRecord where
  id : String
  name : String
  email : String
  role : String
  joined : String
  status : String
  avatar : String
deriving DecidableEq

/-- The fixed seed table `USERS_DB` of src/database.py. -/
def USERS_DB : List (String × UserRecord) :=
  [("user_001", ⟨"user_001", "Alice Johnson", "alice@example.com", "Product Manager",
      "2023-01-15", "active", "https://i.pravatar.cc/150?img=1"⟩),
   ("user_002", ⟨"user_002", "Bob Smith", "bob@example.com", "Software Engineer",
      "2022-06-20", "active", "https://i.pravatar.cc/150?img=2"⟩),
   ("user_003", ⟨"user_003", "Carol Davis", "carol@example.com", "UX Designer",
      "2023-03-10", "active", "https://i.pravatar.cc/150?img=3"⟩)]

/-- `get_user_data`: membership test in `USERS_DB`, raising
`ValueError(f"User {user_id} not found")` on a miss, modelled as `Except`. -/
def get_user_data (user_id : String) : Except String UserRecord :=
  match USERS_DB.lookup user_id with
  | some u => Except.ok u
  | none => Except.error ("User " ++ user_id ++ " not found")

/-- A numeric metric field value: an integer draw (`random.randint`) or a
two-decimal value in hundredths (`round(random.uniform(..), 2)`). -/
inductive MVal where
  | int (n : Nat)
  | fix2 (hundredths : Nat)
deriving DecidableEq

structure MetricPoint where
  date : Int
  kv : List (String × MVal)
deriving DecidableEq

/-- `random.randint(lo, hi)` at call position `k` of the entropy stream `g`:
an arbitrary draw reduced into the inclusive range `[lo, hi]`. -/
def randint (g : Nat → Nat) (k lo hi : Nat) : Nat :=
  lo + g k % (hi + 1 - lo)

/-- One iteration of the `metric_type == "sales"` branch of
`get_metrics_data`; iteration `i` consumes entropy positions `3*i ..`. -/
def salesPoint (today lim : Int) (g : Nat → Nat) (i : Nat) : MetricPoint :=
  ⟨today - lim + (i : Int),
   [("revenue", MVal.int (randint g (3 * i) 5000 25000)),
    ("orders", MVal.int (randint g (3 * i + 1) 50 200)),
    ("avg_order_value", MVal.fix2 (randint g (3 * i + 2) 8000 15000))]⟩

/-- One iteration of the `metric_type == "performance"` branch. -/
def perfPoint (today lim : Int) (g : Nat → Nat) (i : Nat) : MetricPoint :=
  ⟨today - lim + (i : Int),
   [("response_time", MVal.int (randint g (3 * i) 50 500)),
    ("requests", MVal.int (randint g (3 * i + 1) 10000 50000)),
    ("error_rate", MVal.fix2 (randint g (3 * i + 2) 10 250))]⟩

/-- One iteration of the `metric_type == "engagement"` branch. -/
def engagementPoint (today lim : Int) (g : Nat → Nat) (i : Nat) : MetricPoint :=
  ⟨today - lim + (i : Int),
   [("active_users", MVal.int (randint g (3 * i) 1000 5000)),
    ("page_views", MVal.int (randint g (3 * i + 1) 50000 200000)),
    ("avg_session_duration", MVal.int (randint g (3 * i + 2) 120 600))]⟩

/-- The body of the generation loop of `get_metrics_data`: which point (if
any) iteration `i` appends, depending on the branch taken on `metric_type`. -/
def pointFor (metric_type : String) (today lim : Int) (g : Nat → Nat) (i : Nat) :
    Option MetricPoint :=
  if metric_type = "sales" then some (salesPoint today lim g i)
  else if metric_type = "performance" then some (perfPoint today lim g i)
  else if metric_type = "engagement" then some (engagementPoint today lim g i)
  else none

/-- `get_metrics_data(metric_type, limit)`: `base_date = now - limit` days,
then for `i in range(limit)` append the point for `base_date + i` days if
the category matches one of the three branches. -/
def get_metrics_data (today : Int) (g : Nat → Nat) (metric_type : String)
    (limit : Int) : List MetricPoint :=
  (List.range limit.toNat).filterMap (pointFor metric_type today limit g)

/-! ### Formatting helpers -/

/-- Insert a thousands separator after every third character of a reversed
digit list, as long as more digits follow. -/
def commasRev : List Char → List Char
  | c1 :: c2 :: c3 :: c4 :: rest => c1 :: c2 :: c3 :: ',' :: commasRev (c4 :: rest)
  | l => l

/-- Python's `f"{n:,}"` on a nonnegative integer: decimal digits grouped in
threes by commas. -/
def fmtComma (n : Nat) : String :=
  ⟨(commasRev (toString n).data.reverse).reverse⟩

/-- Python's `str` of a `round(x, 2)` float held in hundredths: the integer
part, then the shortest fractional part (at least one digit). -/
def fmtFix2 (h : Nat) : String :=
  let ip := toString (h / 100)
  let f := h % 100
  if f = 0 then ip ++ ".0"
  else if f % 10 = 0 then ip ++ "." ++ toString (f / 10)
  else if f < 10 then ip ++ ".0" ++ toString f
  else ip ++ "." ++ toString f

/-- The textual form of a date (see the module docstring: the day index
stands for the `%Y-%m-%d` rendering; only equality/succession matter). -/
def dateStr (d : Int) : String := toString d

/-- Total accessor for a metric field, standing for Python dict indexing
(`m['revenue']` and the like) on points that carry the key. -/
def mvNat (m : MetricPoint) (k : String) : Nat :=
  match m.kv.lookup k with
  | some (MVal.int n) => n
  | some (MVal.fix2 n) => n
  | none => 0

/-- Python's `str.title()` as used on the single lowercase category words
of this repository ("sales" → "Sales"): capitalize the first character. -/
def titleStr (s : String) : String := s.capitalize


/-! ### HTML template chunks (src/html_renderer.py, transcribed verbatim) -/

def dbChunk0 : String :=
  "\n<!DOCTYPE html>\n<html lang=\"en\">\n<head>\n    <meta charset=\"UTF-8\">\n    <meta name=\"viewport\" content=\"width=device-width, initial-scale=1.0\">\n    <title>Dynamic Dashboard</title>\n    <style>\n        * \x7b\n            margin: 0;\n            padding: 0;\n            box-sizing: border-box;\n        \x7d\n        body \x7b\n            font-family: -apple-system, BlinkMacSystemFont, \x27Segoe UI\x27, Roboto, Oxygen, Ubuntu, Cantarell, sans-serif;\n            background: "

def dbChunk1 : String :=
  ";\n            color: "

def dbChunk2 : String :=
  ";\n            padding: 20px;\n        \x7d\n        .dashboard \x7b\n            max-width: 1200px;\n            margin: 0 auto;\n        \x7d\n        .header \x7b\n            margin-bottom: 30px;\n        \x7d\n        .header h1 \x7b\n            font-size: 32px;\n            margin-bottom: 10px;\n        \x7d\n        .timestamp \x7b\n            color: #888;\n            font-size: 14px;\n        \x7d\n        .stats-grid \x7b\n            display: grid;\n            grid-template-columns: repeat(auto-fit, minmax(250px, 1fr));\n            gap: 20px;\n            margin-bottom: 30px;\n        \x7d\n        .stat-card \x7b\n            background: "

def dbChunk3 : String :=
  ";\n            padding: 25px;\n            border-radius: 12px;\n            box-shadow: 0 2px 8px rgba(0,0,0,0.1);\n        \x7d\n        .stat-card h3 \x7b\n            font-size: 14px;\n            text-transform: uppercase;\n            letter-spacing: 0.5px;\n            margin-bottom: 10px;\n            opacity: 0.7;\n        \x7d\n        .stat-card .value \x7b\n            font-size: 36px;\n            font-weight: bold;\n            color: #3b82f6;\n        \x7d\n        .section \x7b\n            background: "

def dbChunk4 : String :=
  ";\n            padding: 25px;\n            border-radius: 12px;\n            margin-bottom: 20px;\n            box-shadow: 0 2px 8px rgba(0,0,0,0.1);\n        \x7d\n        .section h2 \x7b\n            font-size: 20px;\n            margin-bottom: 20px;\n        \x7d\n        .activity-item \x7b\n            padding: 15px;\n            border-bottom: 1px solid rgba(0,0,0,0.1);\n        \x7d\n        .activity-item:last-child \x7b\n            border-bottom: none;\n        \x7d\n        .activity-user \x7b\n            font-weight: bold;\n            margin-bottom: 5px;\n        \x7d\n        .activity-time \x7b\n            color: #888;\n            font-size: 12px;\n        \x7d\n        .alert \x7b\n            padding: 12px 16px;\n            border-radius: 8px;\n            margin-bottom: 10px;\n            font-size: 14px;\n        \x7d\n        .alert.info \x7b\n            background: #dbeafe;\n            color: #1e40af;\n        \x7d\n        .alert.warning \x7b\n            background: #fef3c7;\n            color: #92400e;\n        \x7d\n    </style>\n</head>\n<body>\n    <div class=\"dashboard\">\n        <div class=\"header\">\n            <h1>🚀 Dynamic Dashboard</h1>\n            <div class=\"timestamp\">Last updated: "

def dbChunk5 : String :=
  "</div>\n        </div>\n        \n        <div class=\"stats-grid\">\n            <div class=\"stat-card\">\n                <h3>Total Users</h3>\n                <div class=\"value\">"

def dbChunk6 : String :=
  "</div>\n            </div>\n            <div class=\"stat-card\">\n                <h3>Active Sessions</h3>\n                <div class=\"value\">"

def dbChunk7 : String :=
  "</div>\n            </div>\n            <div class=\"stat-card\">\n                <h3>Revenue Today</h3>\n                <div class=\"value\">$"

def dbChunk8 : String :=
  "</div>\n            </div>\n            <div class=\"stat-card\">\n                <h3>Orders Today</h3>\n                <div class=\"value\">"

def dbChunk9 : String :=
  "</div>\n            </div>\n        </div>\n        \n        <div class=\"section\">\n            <h2>Recent Activity</h2>\n"

def actChunk0 : String :=
  "\n            <div class=\"activity-item\">\n                <div class=\"activity-user\">"

def actChunk1 : String :=
  "</div>\n                <div>"

def actChunk2 : String :=
  "</div>\n                <div class=\"activity-time\">"

def actChunk3 : String :=
  "</div>\n            </div>\n"

def dbMid : String :=
  "\n        </div>\n        \n        <div class=\"section\">\n            <h2>System Alerts</h2>\n"

def alertChunk0 : String :=
  "<div class=\"alert "

def alertChunk1 : String :=
  "\">"

def alertChunk2 : String :=
  "</div>"

def dbTail : String :=
  "\n        </div>\n    </div>\n</body>\n</html>\n"

def ucChunk0 : String :=
  "\n<!DOCTYPE html>\n<html lang=\"en\">\n<head>\n    <meta charset=\"UTF-8\">\n    <meta name=\"viewport\" content=\"width=device-width, initial-scale=1.0\">\n    <title>User Profile</title>\n    <style>\n        body \x7b\n            font-family: -apple-system, BlinkMacSystemFont, \x27Segoe UI\x27, Roboto, sans-serif;\n            background: #f5f5f5;\n            padding: 20px;\n            display: flex;\n            justify-content: center;\n            align-items: center;\n            min-height: 100vh;\n        \x7d\n        .user-card \x7b\n            background: white;\n            border-radius: 16px;\n            padding: 40px;\n            max-width: 400px;\n            box-shadow: 0 4px 12px rgba(0,0,0,0.1);\n            text-align: center;\n        \x7d\n        .avatar \x7b\n            width: 120px;\n            height: 120px;\n            border-radius: 50%;\n            margin: 0 auto 20px;\n            overflow: hidden;\n        \x7d\n        .avatar img \x7b\n            width: 100%;\n            height: 100%;\n            object-fit: cover;\n        \x7d\n        .name \x7b\n            font-size: 28px;\n            font-weight: bold;\n            margin-bottom: 8px;\n        \x7d\n        .role \x7b\n            color: #666;\n            font-size: 16px;\n            margin-bottom: 20px;\n        \x7d\n        .info-row \x7b\n            display: flex;\n            justify-content: space-between;\n            padding: 12px 0;\n            border-top: 1px solid #eee;\n        \x7d\n        .info-label \x7b\n            color: #888;\n            font-size: 14px;\n        \x7d\n        .info-value \x7b\n            font-weight: 500;\n        \x7d\n        .status \x7b\n            display: inline-block;\n            padding: 6px 16px;\n            border-radius: 20px;\n            font-size: 14px;\n            font-weight: 500;\n            background: #10b981;\n            color: white;\n            margin-top: 15px;\n        \x7d\n    </style>\n</head>\n<body>\n    <div class=\"user-card\">\n        <div class=\"avatar\">\n            <img src=\""

def ucChunk1 : String :=
  "\" alt=\""

def ucChunk2 : String :=
  "\">\n        </div>\n        <div class=\"name\">"

def ucChunk3 : String :=
  "</div>\n        <div class=\"role\">"

def ucChunk4 : String :=
  "</div>\n        <div class=\"info-row\">\n            <span class=\"info-label\">Email:</span>\n            <span class=\"info-value\">"

def ucChunk5 : String :=
  "</span>\n        </div>\n        <div class=\"info-row\">\n            <span class=\"info-label\">User ID:</span>\n            <span class=\"info-value\">"

def ucChunk6 : String :=
  "</span>\n        </div>\n        <div class=\"info-row\">\n            <span class=\"info-label\">Joined:</span>\n            <span class=\"info-value\">"

def ucChunk7 : String :=
  "</span>\n        </div>\n        <div class=\"status\">"

def ucChunk8 : String :=
  "</div>\n    </div>\n</body>\n</html>\n"

def mtChunk0 : String :=
  "\n<!DOCTYPE html>\n<html lang=\"en\">\n<head>\n    <meta charset=\"UTF-8\">\n    <meta name=\"viewport\" content=\"width=device-width, initial-scale=1.0\">\n    <title>Metrics Table - "

def mtChunk1 : String :=
  "</title>\n    <style>\n        body \x7b\n            font-family: -apple-system, BlinkMacSystemFont, \x27Segoe UI\x27, Roboto, sans-serif;\n            background: #f5f5f5;\n            padding: 20px;\n        \x7d\n        .container \x7b\n            max-width: 1000px;\n            margin: 0 auto;\n            background: white;\n            border-radius: 12px;\n            padding: 30px;\n            box-shadow: 0 2px 8px rgba(0,0,0,0.1);\n        \x7d\n        h1 \x7b\n            margin-bottom: 25px;\n            color: #333;\n        \x7d\n        table \x7b\n            width: 100%;\n            border-collapse: collapse;\n        \x7d\n        th \x7b\n            background: #3b82f6;\n            color: white;\n            padding: 15px;\n            text-align: left;\n            font-weight: 600;\n        \x7d\n        td \x7b\n            padding: 12px 15px;\n            border-bottom: 1px solid #eee;\n        \x7d\n        tr:hover \x7b\n            background: #f8f9fa;\n        \x7d\n        tr:last-child td \x7b\n            border-bottom: none;\n        \x7d\n    </style>\n</head>\n<body>\n    <div class=\"container\">\n        <h1>📊 "

def mtChunk2 : String :=
  " Metrics</h1>\n        <table>\n            <thead>\n                <tr>\n"

def mtMid : String :=
  "\n                </tr>\n            </thead>\n            <tbody>\n"

def mtTail : String :=
  "\n            </tbody>\n        </table>\n    </div>\n</body>\n</html>\n"


/-! ### Renderer (src/html_renderer.py) -/

/-- The string a `html += piece` loop accumulates over a list of pieces. -/
def strJoin : List String → String
  | [] => ""
  | s :: r => s ++ strJoin r

/-- The `row_template` lambda of the `"sales"` branch of
`render_metrics_table`. -/
def salesRow (m : MetricPoint) : String :=
  "<td>" ++ dateStr m.date ++ "</td><td>$" ++ fmtComma (mvNat m "revenue")
    ++ "</td><td>" ++ toString (mvNat m "orders") ++ "</td><td>$"
    ++ fmtFix2 (mvNat m "avg_order_value") ++ "</td>"

/-- The `row_template` lambda of the `"performance"` branch. -/
def perfRow (m : MetricPoint) : String :=
  "<td>" ++ dateStr m.date ++ "</td><td>" ++ toString (mvNat m "response_time")
    ++ "</td><td>" ++ fmtComma (mvNat m "requests") ++ "</td><td>"
    ++ fmtFix2 (mvNat m "error_rate") ++ "%</td>"

/-- The `row_template` lambda of the `else` (engagement) branch. -/
def engagementRow (m : MetricPoint) : String :=
  "<td>" ++ dateStr m.date ++ "</td><td>" ++ fmtComma (mvNat m "active_users")
    ++ "</td><td>" ++ fmtComma (mvNat m "page_views") ++ "</td><td>"
    ++ toString (mvNat m "avg_session_duration") ++ "</td>"

/-- The `headers` list chosen by the branch on `metric_type` in
`render_metrics_table`; the `else` branch is the engagement header set. -/
def metricsHeaders (metric_type : String) : List String :=
  if metric_type = "sales" then ["Date", "Revenue", "Orders", "Avg Order Value"]
  else if metric_type = "performance" then
    ["Date", "Response Time (ms)", "Requests", "Error Rate (%)"]
  else ["Date", "Active Users", "Page Views", "Avg Session (s)"]

/-- The `row_template` chosen by the same branch. -/
def rowTemplate (metric_type : String) : MetricPoint → String :=
  if metric_type = "sales" then salesRow
  else if metric_type = "performance" then perfRow
  else engagementRow

/-- One `html += f"                    <th>{header}</th>\n"` iteration. -/
def headerCell (h : String) : String :=
  "                    " ++ ("<th>" ++ h ++ "</th>") ++ "\n"

/-- One `html += f"                <tr>{row_template(metric)}</tr>\n"`
iteration. -/
def bodyRow (r : String) : String :=
  "                " ++ ("<tr>" ++ r ++ "</tr>") ++ "\n"

/-- The cell strings of the body rows of the metrics table, in input order:
what the final `for metric in metrics` loop feeds through `row_template`. -/
def render_metrics_body (metrics : List MetricPoint) (metric_type : String) :
    List String :=
  metrics.map (rowTemplate metric_type)

/-- `render_metrics_table(metrics, metric_type)`: the fixed head (with the
title interpolated twice), the header cells, the body rows, the tail. -/
def render_metrics_table (metrics : List MetricPoint) (metric_type : String) :
    String :=
  mtChunk0 ++ titleStr metric_type ++ mtChunk1 ++ titleStr metric_type ++ mtChunk2
    ++ strJoin ((metricsHeaders metric_type).map headerCell)
    ++ mtMid
    ++ strJoin ((render_metrics_body metrics metric_type).map bodyRow)
    ++ mtTail

/-- `render_user_card(user)`: one f-string interpolating, in order, avatar,
name (as the img alt), name, role, email, id, joined, and the upper-cased
status. -/
def render_user_card (user : UserRecord) : String :=
  ucChunk0 ++ user.avatar ++ ucChunk1 ++ user.name ++ ucChunk2 ++ user.name
    ++ ucChunk3 ++ user.role ++ ucChunk4 ++ user.email ++ ucChunk5 ++ user.id
    ++ ucChunk6 ++ user.joined ++ ucChunk7 ++ String.toUpper user.status
    ++ ucChunk8

structure DashStats where
  total_users : Nat
  active_sessions : Nat
  revenue_today : Nat
  orders_today : Nat
deriving DecidableEq

structure ActivityItem where
  user : String
  action : String
  time : String
deriving DecidableEq

structure AlertItem where
  level : String
  message : String
deriving DecidableEq

/-- The dashboard snapshot produced by `get_dashboard_data` and consumed by
`render_dashboard` (timestamp, stats block, activity list, alerts list). -/
structure DashboardData where
  timestamp : String
  stats : DashStats
  recent_activity : List ActivityItem
  alerts : List AlertItem
deriving DecidableEq

/-- One `for activity in recent_activity` iteration of `render_dashboard`. -/
def activityItemHtml (a : ActivityItem) : String :=
  actChunk0 ++ a.user ++ actChunk1 ++ a.action ++ actChunk2 ++ a.time ++ actChunk3

/-- One `for alert in alerts` iteration of `render_dashboard`. -/
def alertHtml (al : AlertItem) : String :=
  alertChunk0 ++ al.level ++ alertChunk1 ++ al.message ++ alertChunk2

/-- Everything `render_dashboard` emits after the last theme-color
interpolation: the data-dependent remainder of the document. -/
def dashAfterColors (data : DashboardData) : String :=
  dbChunk4 ++ data.timestamp ++ dbChunk5 ++ toString data.stats.total_users
    ++ dbChunk6 ++ toString data.stats.active_sessions ++ dbChunk7
    ++ fmtComma data.stats.revenue_today ++ dbChunk8
    ++ toString data.stats.orders_today ++ dbChunk9
    ++ strJoin (data.recent_activity.map activityItemHtml)
    ++ dbMid
    ++ strJoin (data.alerts.map alertHtml)
    ++ dbTail

/-- `render_dashboard(data, theme)`: the three theme colors are chosen by
`.. if theme == "light" else ..` and interpolated (background once, text
color once, card background twice) into the fixed template. -/
def render_dashboard (data : DashboardData) (theme : String) : String :=
  let bg_color := if theme = "light" then "#ffffff" else "#1a1a1a"
  let text_color := if theme = "light" then "#333333" else "#f0f0f0"
  let card_bg := if theme = "light" then "#f8f9fa" else "#2d2d2d"
  dbChunk0 ++ bg_color ++ dbChunk1 ++ text_color ++ dbChunk2 ++ card_bg
    ++ dbChunk3 ++ card_bg ++ dashAfterColors data

/-! ### Tool facade (src/server.py and src/server_http.py) -/

/-- The outcome of a protocol tool call: the success `TextContent` text, or
the `Error: ..` text produced by the catch-all handler. -/
inductive ToolResult where
  | ok (text : String)
  | err (msg : String)
deriving DecidableEq

def ToolResult.isOk : ToolResult → Bool
  | ToolResult.ok _ => true
  | ToolResult.err _ => false

/-- The `get_metrics_table` branch of `handle_call_tool` (src/server.py):
`metric_type` defaults to "sales", `limit` defaults to 10 and is passed to
the store unchanged; the result text wraps the rendered table. -/
def handle_get_metrics_table (today : Int) (g : Nat → Nat)
    (metric_type? : Option String) (limit? : Option Int) : ToolResult :=
  let metric_type := metric_type?.getD "sales"
  let limit := limit?.getD 10
  let metrics := get_metrics_data today g metric_type limit
  let html := render_metrics_table metrics metric_type
  ToolResult.ok ("Metrics Table (" ++ titleStr metric_type ++ ")\n\n" ++ html)

/-- An HTTP handler outcome: a `text/html` 200 body, or a JSON error with
its status code. -/
inductive HttpResponse where
  | html (body : String)
  | jsonError (msg : String) (status : Nat)
deriving DecidableEq

/-- The limit the HTTP `get_metrics` handler actually uses: default 10,
and `if limit < 1 or limit > 30: limit = 10`. -/
def http_effective_limit (limit? : Option Int) : Int :=
  let limit := limit?.getD 10
  if limit < 1 ∨ 30 < limit then 10 else limit

/-- The HTTP `/api/metrics` handler (src/server_http.py `get_metrics`):
type defaults to "sales", the limit is clamped, and the rendered table is
returned as `text/html`. -/
def http_get_metrics (today : Int) (g : Nat → Nat)
    (type? : Option String) (limit? : Option Int) : HttpResponse :=
  let metric_type := type?.getD "sales"
  let limit := http_effective_limit limit?
  HttpResponse.html (render_metrics_table (get_metrics_data today g metric_type limit) metric_type)

/-- The HTTP `/api/dashboard` handler (src/server_http.py `get_dashboard`):
`data` stands for the snapshot freshly drawn by `get_dashboard_data`; the
`theme` query value is taken as-is with default "light" and handed to the
renderer unvalidated. -/
def http_get_dashboard (data : DashboardData) (theme? : Option String) :
    HttpResponse :=
  HttpResponse.html (render_dashboard data (theme?.getD "light"))


/-! ### Generic string and list lemmas -/

theorem strData_append (a b : String) : (a ++ b).data = a.data ++ b.data := rfl

/-- `m` occurs verbatim as a contiguous substring of `s`. -/
def occursIn (m s : String) : Prop := ∃ u v, u ++ m.data ++ v = s.data

theorem occursIn_self (m : String) : occursIn m m := ⟨[], [], by simp⟩

theorem occursIn_appL (a : String) {m s : String} (h : occursIn m s) :
    occursIn m (a ++ s) := by
  obtain ⟨u, v, hu⟩ := h
  exact ⟨a.data ++ u, v, by rw [strData_append, ← hu]; simp⟩

theorem occursIn_appR (b : String) {m s : String} (h : occursIn m s) :
    occursIn m (s ++ b) := by
  obtain ⟨u, v, hu⟩ := h
  exact ⟨u, v ++ b.data, by rw [strData_append, ← hu]; simp⟩

theorem occursIn_strJoin {m t : String} {l : List String} (ht : t ∈ l)
    (hm : occursIn m t) : occursIn m (strJoin l) := by
  induction l with
  | nil => cases ht
  | cons x r ih =>
    rcases List.mem_cons.mp ht with h | h
    · subst h; exact occursIn_appR _ hm
    · exact occursIn_appL _ (ih h)

theorem filterMap_someF {α β : Type} (f : α → β) (l : List α) :
    l.filterMap (fun a => some (f a)) = l.map f := by
  induction l with
  | nil => rfl
  | cons a r ih => simp [List.filterMap_cons, ih]

theorem filterMap_noneF {α β : Type} (f : α → Option β) (l : List α)
    (hf : ∀ a, f a = none) : l.filterMap f = [] := by
  induction l with
  | nil => rfl
  | cons a r ih => simp [List.filterMap_cons, hf, ih]

theorem getLast?_range_map {α : Type} (f : Nat → α) (k : Nat) :
    ((List.range (k + 1)).map f).getLast? = some (f k) := by
  rw [List.range_succ, List.map_append]
  exact List.getLast?_concat _

theorem chain_consec (base : Int) (n : Nat) :
    List.Chain' (fun a b : Int => b = a + 1)
      ((List.range n).map (fun i : Nat => base + (i : Int))) := by
  rw [List.chain'_map]
  cases n with
  | zero => simp
  | succ k =>
    rw [List.chain'_range_succ]
    intro m _
    push_cast
    ring

/-! ### Store-level lemmas -/

theorem randint_bounds (g : Nat → Nat) (k lo hi : Nat) (h : lo ≤ hi) :
    lo ≤ randint g k lo hi ∧ randint g k lo hi ≤ hi := by
  unfold randint
  have hm : g k % (hi + 1 - lo) < hi + 1 - lo := Nat.mod_lt _ (by omega)
  omega

theorem get_metrics_sales (today : Int) (g : Nat → Nat) (lim : Int) :
    get_metrics_data today g "sales" lim =
      (List.range lim.toNat).map (salesPoint today lim g) := by
  unfold get_metrics_data
  rw [show pointFor "sales" today lim g = fun i => some (salesPoint today lim g i) from rfl]
  exact filterMap_someF _ _

theorem get_metrics_performance (today : Int) (g : Nat → Nat) (lim : Int) :
    get_metrics_data today g "performance" lim =
      (List.range lim.toNat).map (perfPoint today lim g) := by
  unfold get_metrics_data
  rw [show pointFor "performance" today lim g = fun i => some (perfPoint today lim g i) from rfl]
  exact filterMap_someF _ _

theorem get_metrics_engagement (today : Int) (g : Nat → Nat) (lim : Int) :
    get_metrics_data today g "engagement" lim =
      (List.range lim.toNat).map (engagementPoint today lim g) := by
  unfold get_metrics_data
  rw [show pointFor "engagement" today lim g = fun i => some (engagementPoint today lim g i) from rfl]
  exact filterMap_someF _ _

theorem get_metrics_unknown (today : Int) (g : Nat → Nat) (mt : String) (lim : Int)
    (h1 : mt ≠ "sales") (h2 : mt ≠ "performance") (h3 : mt ≠ "engagement") :
    get_metrics_data today g mt lim = [] :=
  filterMap_noneF _ _ (fun i => by
    unfold pointFor
    rw [if_neg h1, if_neg h2, if_neg h3])

theorem map_date_sales (today : Int) (g : Nat → Nat) (lim : Int) :
    (get_metrics_data today g "sales" lim).map MetricPoint.date =
      (List.range lim.toNat).map (fun i : Nat => today - lim + (i : Int)) := by
  rw [get_metrics_sales, List.map_map]
  rfl

theorem map_date_performance (today : Int) (g : Nat → Nat) (lim : Int) :
    (get_metrics_data today g "performance" lim).map MetricPoint.date =
      (List.range lim.toNat).map (fun i : Nat => today - lim + (i : Int)) := by
  rw [get_metrics_performance, List.map_map]
  rfl

theorem map_date_engagement (today : Int) (g : Nat → Nat) (lim : Int) :
    (get_metrics_data today g "engagement" lim).map MetricPoint.date =
      (List.range lim.toNat).map (fun i : Nat => today - lim + (i : Int)) := by
  rw [get_metrics_engagement, List.map_map]
  rfl

theorem map_date_valid (today : Int) (g : Nat → Nat) (mt : String) (lim : Int)
    (hmt : mt = "sales" ∨ mt = "performance" ∨ mt = "engagement") :
    (get_metrics_data today g mt lim).map MetricPoint.date =
      (List.range lim.toNat).map (fun i : Nat => today - lim + (i : Int)) := by
  rcases hmt with h | h | h
  · rw [h]; exact map_date_sales today g lim
  · rw [h]; exact map_date_performance today g lim
  · rw [h]; exact map_date_engagement today g lim

/-! ### Claim theorems -/

/-- C1: `getMetrics("sales", 5)` returns exactly 5 metric points, their
calendar dates are strictly increasing and consecutive (each one day after
the previous), and every point carries a revenue field within
`[5000, 25000]` — for any wall clock and any entropy stream. -/
theorem C1_sales_five_points (today : Int) (g : Nat → Nat) :
    (get_metrics_data today g "sales" 5).length = 5 ∧
    List.Chain' (fun a b : Int => b = a + 1)
      ((get_metrics_data today g "sales" 5).map MetricPoint.date) ∧
    ∀ m ∈ get_metrics_data today g "sales" 5,
      ∃ r, m.kv.lookup "revenue" = some (MVal.int r) ∧ 5000 ≤ r ∧ r ≤ 25000 := by
  refine ⟨?_, ?_, ?_⟩
  · rw [get_metrics_sales]
    simp
  · rw [map_date_sales]
    exact chain_consec _ _
  · intro m hm
    rw [get_metrics_sales] at hm
    rcases List.mem_map.mp hm with ⟨i, _, rfl⟩
    exact ⟨randint g (3 * i) 5000 25000, rfl,
      (randint_bounds g _ 5000 25000 (by omega)).1,
      (randint_bounds g _ 5000 25000 (by omega)).2⟩

/-- C2 (counterexample): with the current day at index 100, the single
point of `getMetrics("sales", 1)` is dated 99 — the day before today — so
the sequence does not end at "today" as the claim states. -/
theorem C2_counterexample :
    ((get_metrics_data 100 (fun _ => 0) "sales" 1).map MetricPoint.date
      = [99]) ∧ (99 : Int) ≠ 100 := by
  constructor
  · decide
  · decide

/-- C2 (amended): for every valid category and every count ≥ 1, the dates
are consecutive calendar days ending at the day **before** today (the last
point's date is `today - 1`, not today). -/
theorem C2_amended_dates_end_yesterday (today : Int) (g : Nat → Nat)
    (mt : String) (count : Int)
    (hmt : mt = "sales" ∨ mt = "performance" ∨ mt = "engagement")
    (hc : 1 ≤ count) :
    List.Chain' (fun a b : Int => b = a + 1)
      ((get_metrics_data today g mt count).map MetricPoint.date) ∧
    ((get_metrics_data today g mt count).map MetricPoint.date).getLast?
      = some (today - 1) ∧
    (get_metrics_data today g mt count).length = count.toNat := by
  have hd := map_date_valid today g mt count hmt
  refine ⟨?_, ?_, ?_⟩
  · rw [hd]
    exact chain_consec _ _
  · rw [hd]
    obtain ⟨k, hk⟩ : ∃ k, count.toNat = k + 1 := ⟨count.toNat - 1, by omega⟩
    rw [hk, getLast?_range_map]
    simp only [Option.some.injEq]
    omega
  · have := congrArg List.length hd
    simpa using this

/-- C2 (witness): the amended statement instantiated at day index 10,
category "sales", count 3, zero entropy. -/
theorem C2_amended_witness :
    List.Chain' (fun a b : Int => b = a + 1)
      ((get_metrics_data 10 (fun _ => 0) "sales" 3).map MetricPoint.date) ∧
    ((get_metrics_data 10 (fun _ => 0) "sales" 3).map MetricPoint.date).getLast?
      = some (10 - 1) ∧
    (get_metrics_data 10 (fun _ => 0) "sales" 3).length = (3 : Int).toNat :=
  C2_amended_dates_end_yesterday 10 (fun _ => 0) "sales" 3 (Or.inl rfl) (by decide)

/-- C5: each of the three seeded ids yields its record (matching id,
non-empty name); every other id yields the NotFound error and no record. -/
theorem C5_get_user_seeded_or_not_found :
    (∀ uid, uid ∈ ["user_001", "user_002", "user_003"] →
      ∃ u, get_user_data uid = Except.ok u ∧ u.id = uid ∧ u.name ≠ "") ∧
    (∀ uid, uid ∉ ["user_001", "user_002", "user_003"] →
      get_user_data uid = Except.error ("User " ++ uid ++ " not found")) := by
  constructor
  · intro uid h
    fin_cases h
    · exact ⟨_, rfl, rfl, by decide⟩
    · exact ⟨_, rfl, rfl, by decide⟩
    · exact ⟨_, rfl, rfl, by decide⟩
  · intro uid h
    simp only [List.mem_cons, List.mem_singleton, not_or] at h
    obtain ⟨h1, h2, h3, -⟩ := h
    have b1 : (uid == "user_001") = false := beq_eq_false_iff_ne.mpr h1
    have b2 : (uid == "user_002") = false := beq_eq_false_iff_ne.mpr h2
    have b3 : (uid == "user_003") = false := beq_eq_false_iff_ne.mpr h3
    unfold get_user_data USERS_DB
    simp [List.lookup, b1, b2, b3]

/-- C5 (witness): the seeded id "user_001" succeeds with a matching record;
the unknown id "user_999" fails with the NotFound message. -/
theorem C5_witness :
    (∃ u, get_user_data "user_001" = Except.ok u ∧ u.id = "user_001" ∧
      u.name ≠ "") ∧
    get_user_data "user_999" = Except.error ("User " ++ "user_999" ++ " not found") :=
  ⟨C5_get_user_seeded_or_not_found.1 "user_001" (by decide),
   C5_get_user_seeded_or_not_found.2 "user_999" (by decide)⟩


/-- Any chosen header, wrapped in its `<th>` element, occurs verbatim in the
rendered metrics table, whatever the category string and the points. -/
theorem headers_occur (ms : List MetricPoint) (mt : String) (h : String)
    (hh : h ∈ metricsHeaders mt) :
    occursIn ("<th>" ++ h ++ "</th>") (render_metrics_table ms mt) := by
  unfold render_metrics_table
  apply occursIn_appR
  apply occursIn_appR
  apply occursIn_appR
  apply occursIn_appL
  refine occursIn_strJoin (List.mem_map_of_mem headerCell hh) ?_
  unfold headerCell
  exact occursIn_appR _ (occursIn_appL _ (occursIn_self _))

theorem get_metrics_length_le (today : Int) (g : Nat → Nat) (mt : String)
    (lim : Int) : (get_metrics_data today g mt lim).length ≤ lim.toNat := by
  unfold get_metrics_data
  have := List.length_filterMap_le (pointFor mt today lim g) (List.range lim.toNat)
  simpa using this

/-- C3 (counterexample): the protocol facade called with the unknown
category "bogus" succeeds and returns a rendered document (the store
contributed no rows), not a structured error. -/
theorem C3_counterexample :
    ToolResult.isOk (handle_get_metrics_table 0 (fun _ => 0) (some "bogus")
      (some 2)) = true ∧
    handle_get_metrics_table 0 (fun _ => 0) (some "bogus") (some 2) =
      ToolResult.ok ("Metrics Table (" ++ titleStr "bogus" ++ ")\n\n" ++
        render_metrics_table [] "bogus") := by
  constructor
  · rfl
  · rfl

/-- C3 (amended): an unknown metric category is *not* rejected at the
facade boundary: for any category outside the three known ones, the
protocol facade returns a successful rendered document (an empty table in
that category's name), never an error. -/
theorem C3_amended_unknown_not_rejected (today : Int) (g : Nat → Nat)
    (mt : String) (lim : Int)
    (h1 : mt ≠ "sales") (h2 : mt ≠ "performance") (h3 : mt ≠ "engagement") :
    handle_get_metrics_table today g (some mt) (some lim) =
      ToolResult.ok ("Metrics Table (" ++ titleStr mt ++ ")\n\n" ++
        render_metrics_table [] mt) := by
  simp only [handle_get_metrics_table, Option.getD_some]
  rw [get_metrics_unknown today g mt lim h1 h2 h3]

/-- C3 (witness): the amended statement at the concrete unknown category
"unknown". -/
theorem C3_amended_witness :
    handle_get_metrics_table 0 (fun _ => 0) (some "unknown") (some 5) =
      ToolResult.ok ("Metrics Table (" ++ titleStr "unknown" ++ ")\n\n" ++
        render_metrics_table [] "unknown") :=
  C3_amended_unknown_not_rejected 0 (fun _ => 0) "unknown" 5 (by decide)
    (by decide) (by decide)

/-- C4 (counterexample): in the protocol transport a limit of 31 is neither
rejected nor clamped: the facade renders the 31 rows the store produced, so
the table body has more than 30 rows. -/
theorem C4_counterexample :
    handle_get_metrics_table 31 (fun _ => 0) none (some 31) =
      ToolResult.ok ("Metrics Table (" ++ titleStr "sales" ++ ")\n\n" ++
        render_metrics_table (get_metrics_data 31 (fun _ => 0) "sales" 31)
          "sales") ∧
    (render_metrics_body (get_metrics_data 31 (fun _ => 0) "sales" 31)
      "sales").length = 31 ∧
    ¬ ((render_metrics_body (get_metrics_data 31 (fun _ => 0) "sales" 31)
      "sales").length ≤ 30) := by
  have hlen : (render_metrics_body (get_metrics_data 31 (fun _ => 0) "sales" 31)
      "sales").length = 31 := by
    unfold render_metrics_body
    rw [List.length_map, get_metrics_sales]
    simp
  exact ⟨rfl, hlen, by omega⟩

/-- C4 (amended): only the HTTP transport bounds the limit: its effective
limit defaults to 10, always lands in `[1, 30]` (values outside are clamped
to 10), and its rendered table never has more than 30 body rows; the
protocol transport passes any supplied limit to the store unchanged. -/
theorem C4_amended_http_clamps_protocol_does_not (today : Int)
    (g : Nat → Nat) (type? : Option String) (limit? : Option Int) (lim : Int) :
    1 ≤ http_effective_limit limit? ∧ http_effective_limit limit? ≤ 30 ∧
    http_effective_limit none = 10 ∧
    http_get_metrics today g type? limit? =
      HttpResponse.html (render_metrics_table
        (get_metrics_data today g (type?.getD "sales")
          (http_effective_limit limit?)) (type?.getD "sales")) ∧
    (render_metrics_body
      (get_metrics_data today g (type?.getD "sales")
        (http_effective_limit limit?)) (type?.getD "sales")).length ≤ 30 ∧
    handle_get_metrics_table today g type? (some lim) =
      ToolResult.ok ("Metrics Table (" ++ titleStr (type?.getD "sales")
        ++ ")\n\n" ++
        render_metrics_table (get_metrics_data today g (type?.getD "sales") lim)
          (type?.getD "sales")) := by
  have hb : 1 ≤ http_effective_limit limit? ∧ http_effective_limit limit? ≤ 30 := by
    rcases limit? with - | l <;>
      simp only [http_effective_limit, Option.getD_some, Option.getD_none] <;>
      split <;> omega
  refine ⟨hb.1, hb.2, rfl, rfl, ?_, rfl⟩
  unfold render_metrics_body
  rw [List.length_map]
  have h1 := get_metrics_length_le today g (type?.getD "sales")
    (http_effective_limit limit?)
  have h2 := hb.1
  have h3 := hb.2
  omega

/-- C6: when an unknown category reaches the store and renderer directly,
the store yields no rows, the renderer picks the engagement headers and the
engagement row formatter, and the output document carries each engagement
header with an empty body-row list. -/
theorem C6_unknown_category_direct (today : Int) (g : Nat → Nat)
    (count : Int) (mt : String)
    (h1 : mt ≠ "sales") (h2 : mt ≠ "performance") (h3 : mt ≠ "engagement") :
    get_metrics_data today g mt count = [] ∧
    metricsHeaders mt = ["Date", "Active Users", "Page Views", "Avg Session (s)"] ∧
    rowTemplate mt = engagementRow ∧
    render_metrics_body (get_metrics_data today g mt count) mt = [] ∧
    ∀ h ∈ metricsHeaders mt,
      occursIn ("<th>" ++ h ++ "</th>")
        (render_metrics_table (get_metrics_data today g mt count) mt) := by
  have hs := get_metrics_unknown today g mt count h1 h2 h3
  refine ⟨hs, ?_, ?_, ?_, ?_⟩
  · unfold metricsHeaders
    rw [if_neg h1, if_neg h2]
  · unfold rowTemplate
    rw [if_neg h1, if_neg h2]
  · rw [hs]; rfl
  · intro h hh
    exact headers_occur _ mt h hh

/-- C6 (witness): the statement at the concrete unknown category "bogus". -/
theorem C6_witness :
    get_metrics_data 0 (fun _ => 0) "bogus" 3 = [] ∧
    metricsHeaders "bogus" = ["Date", "Active Users", "Page Views", "Avg Session (s)"] ∧
    rowTemplate "bogus" = engagementRow ∧
    render_metrics_body (get_metrics_data 0 (fun _ => 0) "bogus" 3) "bogus" = [] ∧
    ∀ h ∈ metricsHeaders "bogus",
      occursIn ("<th>" ++ h ++ "</th>")
        (render_metrics_table (get_metrics_data 0 (fun _ => 0) "bogus" 3) "bogus") :=
  C6_unknown_category_direct 0 (fun _ => 0) 3 "bogus" (by decide) (by decide)
    (by decide)

/-- C7: for every valid category, a count of 0 yields the empty sequence,
and rendering the empty sequence is total: the table has an empty body-row
list while each of the category's header cells still occurs in it. -/
theorem C7_zero_count_renders_headers (today : Int) (g : Nat → Nat)
    (mt : String)
    (_hmt : mt = "sales" ∨ mt = "performance" ∨ mt = "engagement") :
    get_metrics_data today g mt 0 = [] ∧
    render_metrics_body [] mt = [] ∧
    ∀ h ∈ metricsHeaders mt,
      occursIn ("<th>" ++ h ++ "</th>") (render_metrics_table [] mt) := by
  refine ⟨rfl, rfl, ?_⟩
  intro h hh
  exact headers_occur [] mt h hh

/-- C7 (witness): the statement at the concrete category "performance". -/
theorem C7_witness :
    get_metrics_data 0 (fun _ => 0) "performance" 0 = [] ∧
    render_metrics_body [] "performance" = [] ∧
    ∀ h ∈ metricsHeaders "performance",
      occursIn ("<th>" ++ h ++ "</th>") (render_metrics_table [] "performance") :=
  C7_zero_count_renders_headers 0 (fun _ => 0) "performance" (Or.inr (Or.inl rfl))


/-- C8: for every snapshot, the dark and the light dashboard are the same
document up to the three documented color substitutions — both are exactly
the shared template pieces with only the background (`#ffffff` vs
`#1a1a1a`), text (`#333333` vs `#f0f0f0`) and card (`#f8f9fa` vs `#2d2d2d`)
colors interpolated, the card color twice. -/
theorem C8_theme_differs_only_in_colors (d : DashboardData) :
    render_dashboard d "light" =
      dbChunk0 ++ "#ffffff" ++ dbChunk1 ++ "#333333" ++ dbChunk2 ++ "#f8f9fa"
        ++ dbChunk3 ++ "#f8f9fa" ++ dashAfterColors d ∧
    render_dashboard d "dark" =
      dbChunk0 ++ "#1a1a1a" ++ dbChunk1 ++ "#f0f0f0" ++ dbChunk2 ++ "#2d2d2d"
        ++ dbChunk3 ++ "#2d2d2d" ++ dashAfterColors d :=
  ⟨rfl, rfl⟩

/-- C9: for every user record, the rendered user card contains the
upper-cased status string and the unmodified email string as literal
substrings. -/
theorem C9_user_card_status_email (u : UserRecord) :
    occursIn (String.toUpper u.status) (render_user_card u) ∧
    occursIn u.email (render_user_card u) := by
  constructor
  · unfold render_user_card
    exact occursIn_appR _ (occursIn_appL _ (occursIn_self _))
  · unfold render_user_card
    apply occursIn_appR
    apply occursIn_appR
    apply occursIn_appR
    apply occursIn_appR
    apply occursIn_appR
    apply occursIn_appR
    apply occursIn_appR
    apply occursIn_appL
    exact occursIn_self _

/-- C10: every theme string other than exactly "light" produces exactly the
dark-theme dashboard, and the HTTP transport hands any supplied theme query
value to the renderer unvalidated, so such a request yields the dark
document. -/
theorem C10_nonlight_theme_is_dark (d : DashboardData) (t : String)
    (h : t ≠ "light") :
    render_dashboard d t = render_dashboard d "dark" ∧
    http_get_dashboard d (some t) =
      HttpResponse.html (render_dashboard d "dark") := by
  have hr : render_dashboard d t = render_dashboard d "dark" := by
    show dbChunk0 ++ (if t = "light" then "#ffffff" else "#1a1a1a") ++ dbChunk1
        ++ (if t = "light" then "#333333" else "#f0f0f0") ++ dbChunk2
        ++ (if t = "light" then "#f8f9fa" else "#2d2d2d") ++ dbChunk3
        ++ (if t = "light" then "#f8f9fa" else "#2d2d2d") ++ dashAfterColors d
      = render_dashboard d "dark"
    rw [if_neg h, if_neg h, if_neg h]
    rfl
  refine ⟨hr, ?_⟩
  show HttpResponse.html (render_dashboard d t) =
    HttpResponse.html (render_dashboard d "dark")
  rw [hr]

/-- A concrete dashboard snapshot used to instantiate witnesses. -/
def dash0 : DashboardData :=
  ⟨"2024-01-01 00:00:00", ⟨3, 10, 5000, 50⟩,
   [⟨"Alice Johnson", "Completed order #1234", "2 minutes ago"⟩],
   [⟨"info", "System running smoothly"⟩]⟩

/-- C10 (witness): the theme "blue" is not "light" and yields the dark
dashboard through both the renderer and the HTTP handler. -/
theorem C10_witness :
    render_dashboard dash0 "blue" = render_dashboard dash0 "dark" ∧
    http_get_dashboard dash0 (some "blue") =
      HttpResponse.html (render_dashboard dash0 "dark") :=
  C10_nonlight_theme_is_dark dash0 "blue" (by decide)


/-- C1 (witness): the statement at day index 0 and the zero entropy
stream. -/
theorem C1_witness :
    (get_metrics_data 0 (fun _ => 0) "sales" 5).length = 5 ∧
    List.Chain' (fun a b : Int => b = a + 1)
      ((get_metrics_data 0 (fun _ => 0) "sales" 5).map MetricPoint.date) ∧
    ∀ m ∈ get_metrics_data 0 (fun _ => 0) "sales" 5,
      ∃ r, m.kv.lookup "revenue" = some (MVal.int r) ∧ 5000 ≤ r ∧ r ≤ 25000 :=
  C1_sales_five_points 0 (fun _ => 0)

/-- C4 (witness): the amended statement at a supplied limit of 31. -/
theorem C4_witness :
    1 ≤ http_effective_limit (some 31) ∧ http_effective_limit (some 31) ≤ 30 ∧
    http_effective_limit none = 10 ∧
    http_get_metrics 0 (fun _ => 0) none (some 31) =
      HttpResponse.html (render_metrics_table
        (get_metrics_data 0 (fun _ => 0) ((none : Option String).getD "sales")
          (http_effective_limit (some 31)))
        ((none : Option String).getD "sales")) ∧
    (render_metrics_body
      (get_metrics_data 0 (fun _ => 0) ((none : Option String).getD "sales")
        (http_effective_limit (some 31)))
      ((none : Option String).getD "sales")).length ≤ 30 ∧
    handle_get_metrics_table 0 (fun _ => 0) none (some 31) =
      ToolResult.ok ("Metrics Table ("
        ++ titleStr ((none : Option String).getD "sales") ++ ")\n\n"
        ++ render_metrics_table
          (get_metrics_data 0 (fun _ => 0) ((none : Option String).getD "sales") 31)
          ((none : Option String).getD "sales")) :=
  C4_amended_http_clamps_protocol_does_not 0 (fun _ => 0) none (some 31) 31

/-- C8 (witness): the decomposition at the concrete snapshot `dash0`. -/
theorem C8_witness :
    render_dashboard dash0 "light" =
      dbChunk0 ++ "#ffffff" ++ dbChunk1 ++ "#333333" ++ dbChunk2 ++ "#f8f9fa"
        ++ dbChunk3 ++ "#f8f9fa" ++ dashAfterColors dash0 ∧
    render_dashboard dash0 "dark" =
      dbChunk0 ++ "#1a1a1a" ++ dbChunk1 ++ "#f0f0f0" ++ dbChunk2 ++ "#2d2d2d"
        ++ dbChunk3 ++ "#2d2d2d" ++ dashAfterColors dash0 :=
  C8_theme_differs_only_in_colors dash0

/-- A concrete user record (the first seeded record) used to instantiate
the C9 witness. -/
def user0 : UserRecord :=
  ⟨"user_001", "Alice Johnson", "alice@example.com", "Product Manager",
   "2023-01-15", "active", "https://i.pravatar.cc/150?img=1"⟩

/-- C9 (witness): the statement at the concrete record `user0`. -/
theorem C9_witness :
    occursIn (String.toUpper user0.status) (render_user_card user0) ∧
    occursIn user0.email (render_user_card user0) :=
  C9_user_card_status_email user0

end DynamicHtml

